import Mathlib

/-!
# CryptoFuel dApp front end (`src/js/index.js`)

A shallow embedding of the error classifier `getFriendlyErrorMessage` and of the
button handlers `connect`, `fund`, `getBalance` and `withdraw`, followed by the
properties established about them.

Conventions of the embedding:

* a JavaScript property that is absent or `undefined` is `none`;
* `x === "lit"` on an optional string is `x == some "lit"`;
* a string is truthy exactly when it is not empty;
* an object is always truthy, so `while (cause.cause)` tests whether the
  property holds a further failure;
* `Attrs` holds attributes that are strings (a number for `code`) or absent,
  as the types of the library prescribe; `RawAttrs` holds attributes of any
  primitive type, and the two embeddings of the classifier agree on the former.
-/

namespace CryptoFuel

/-! ## Failure values -/

/-- The four attributes of an error object that the classifier reads:
`name`, `code`, `message`, `reason`. -/
structure Attrs where
  name : Option String := none
  code : Option Int := none
  message : Option String := none
  reason : Option String := none
deriving DecidableEq

/-- A failure with a finite cause chain: either an error object whose `cause`
property is absent or falsy, or an error object wrapping a further failure. -/
inductive Failure where
  | leaf (a : Attrs)
  | wrap (a : Attrs) (cause : Failure)
deriving DecidableEq

namespace Failure

/-- The attributes of the outermost error object. -/
def attrs : Failure → Attrs
  | leaf a => a
  | wrap a _ => a

/-- The `cause` property of the outermost error object, when truthy. -/
def causeOf : Failure → Option Failure
  | leaf _ => none
  | wrap _ c => some c

/-- Number of `cause` links below the outermost error object. -/
def depth : Failure → Nat
  | leaf _ => 0
  | wrap _ c => depth c + 1

end Failure

/-! ## String helpers -/

/-- Does the character list `hay` begin with `needle`? -/
def beginsWith : List Char → List Char → Bool
  | _, [] => true
  | [], _ :: _ => false
  | h :: hs, n :: ns => h == n && beginsWith hs ns

/-- Does `needle` occur at some position of `hay`? -/
def occursIn (needle : List Char) : List Char → Bool
  | [] => beginsWith [] needle
  | h :: hs => beginsWith (h :: hs) needle || occursIn needle hs

/-- The method `String.prototype.includes`: case-sensitive substring search. -/
def includes (hay needle : String) : Bool :=
  occursIn needle.data hay.data

/-- The guard `cause.message && cause.message.includes(needle)`. -/
def messageIncludes (a : Attrs) (needle : String) : Bool :=
  match a.message with
  | some m => m != "" && includes m needle
  | none => false

/-! ## The classifier -/

def msgRejected : String :=
  "Transaction rejected. You canceled the request in your wallet."

def msgReverted : String :=
  "The transaction was reverted by the contract."

def msgInsufficient : String :=
  "Insufficient funds to complete the transaction (including gas fees)."

def msgForbidden : String :=
  "Request forbidden. Your RPC provider may be blocking the request."

def msgTimeout : String :=
  "Network request timed out. Please check your internet connection."

def msgUnexpected : String :=
  "An unexpected error occurred. Please try again."

/-- The loop `let cause = error; while (cause.cause) cause = cause.cause;` on a
finite chain: the final value of `cause`, the innermost error object. -/
def rootCause : Failure → Failure
  | .leaf a => .leaf a
  | .wrap _ c => rootCause c

/-- The chain of `if` statements that follows the loop, applied to the
attributes of the innermost error object. -/
def classify (cause : Attrs) : String :=
  if cause.name == some "UserRejectedRequestError" || cause.code == some 4001 then
    msgRejected
  else if cause.name == some "ContractFunctionRevertedError" then
    match cause.reason with
    | some r => if r != "" then r else msgReverted
    | none => msgReverted
  else if messageIncludes cause "insufficient funds" then
    msgInsufficient
  else if messageIncludes cause "403" then
    msgForbidden
  else if cause.name == some "TimeoutError" then
    msgTimeout
  else
    msgUnexpected

/-- The function `getFriendlyErrorMessage` on a failure with a finite cause
chain (the `console.error` call has no effect on the result). -/
def getFriendlyErrorMessage (error : Failure) : String :=
  classify (rootCause error).attrs

/-! ## The classifier on arbitrary object graphs

JavaScript objects are references, so a `cause` link may point back to an
object already on the chain.  The loop is modelled here over an arbitrary
graph of error objects, with an explicit bound on the number of times the loop
condition is evaluated; `none` means the bound was exhausted. -/

/-- A graph of error objects identified by values of `α`. -/
structure ErrorGraph (α : Type) where
  /-- The attributes read from an object. -/
  attrs : α → Attrs
  /-- The object held in the `cause` property, when truthy. -/
  causeOf : α → Option α

/-- The loop `while (cause.cause) cause = cause.cause;` where `fuel` bounds the
number of evaluations of the loop condition. -/
def walk {α : Type} (g : ErrorGraph α) : Nat → α → Option α
  | 0, _ => none
  | fuel + 1, cause =>
    match g.causeOf cause with
    | some inner => walk g fuel inner
    | none => some cause

/-- The function `getFriendlyErrorMessage` on an object of an arbitrary graph. -/
def getFriendlyErrorMessageOn {α : Type} (g : ErrorGraph α) (fuel : Nat) (error : α) :
    Option String :=
  (walk g fuel error).map fun cause => classify (g.attrs cause)

/-- Finite chains seen as a graph. -/
def chainGraph : ErrorGraph Failure where
  attrs := Failure.attrs
  causeOf := Failure.causeOf

/-- A single error object `e` with `e.cause = e`. -/
def selfCaused : ErrorGraph Unit where
  attrs := fun _ => { name := some "TimeoutError" }
  causeOf := fun _ => some ()

/-- Two error objects, each the `cause` of the other. -/
def mutuallyCaused : ErrorGraph Bool where
  attrs := fun _ => {}
  causeOf := fun b => some (!b)

/-! ## The classifier on attributes of any primitive type

Nothing in the source checks the type of an attribute before using it.  Here
the four attributes hold arbitrary primitive values, a call of a method that
the value lacks raises `TypeError`, and the result is whatever value the
`return` statement yields. -/

/-- A primitive JavaScript value (numbers restricted to integers). -/
inductive JsValue where
  | undefined
  | null
  | boolean (b : Bool)
  | number (n : Int)
  | string (s : String)
deriving DecidableEq

/-- Truthiness of a primitive value. -/
def JsValue.truthy : JsValue → Bool
  | .undefined => false
  | .null => false
  | .boolean b => b
  | .number n => n != 0
  | .string s => s != ""

/-- An exception raised by the classifier itself. -/
inductive JsError where
  | typeError
deriving DecidableEq

/-- The attributes of an error object, of any primitive type. -/
structure RawAttrs where
  name : JsValue := .undefined
  code : JsValue := .undefined
  message : JsValue := .undefined
  reason : JsValue := .undefined
deriving DecidableEq

/-- A failure with a finite cause chain whose attributes are of any primitive
type. -/
inductive RawFailure where
  | leaf (a : RawAttrs)
  | wrap (a : RawAttrs) (cause : RawFailure)
deriving DecidableEq

/-- The attributes of the outermost error object. -/
def RawFailure.attrs : RawFailure → RawAttrs
  | .leaf a => a
  | .wrap a _ => a

/-- The loop `while (cause.cause) cause = cause.cause;` on a finite chain. -/
def rootCauseRaw : RawFailure → RawFailure
  | .leaf a => .leaf a
  | .wrap _ c => rootCauseRaw c

/-- The call `v.includes(needle)` on a truthy value: strings have the method,
numbers and booleans do not, and calling a missing method raises `TypeError`,
as does reading a property of `undefined` or `null`. -/
def includesCall (v : JsValue) (needle : String) : Except JsError Bool :=
  match v with
  | .string s => .ok (includes s needle)
  | _ => .error .typeError

/-- The guard `cause.message && cause.message.includes(needle)`. -/
def messageIncludesRaw (a : RawAttrs) (needle : String) : Except JsError Bool :=
  if a.message.truthy then includesCall a.message needle else .ok false

/-- The chain of `if` statements that follows the loop. -/
def classifyRaw (cause : RawAttrs) : Except JsError JsValue :=
  if cause.name == .string "UserRejectedRequestError" || cause.code == .number 4001 then
    .ok (.string msgRejected)
  else if cause.name == .string "ContractFunctionRevertedError" then
    .ok (if cause.reason.truthy then cause.reason else .string msgReverted)
  else
    match messageIncludesRaw cause "insufficient funds" with
    | .error err => .error err
    | .ok true => .ok (.string msgInsufficient)
    | .ok false =>
      match messageIncludesRaw cause "403" with
      | .error err => .error err
      | .ok true => .ok (.string msgForbidden)
      | .ok false =>
        if cause.name == .string "TimeoutError" then
          .ok (.string msgTimeout)
        else
          .ok (.string msgUnexpected)

/-- The function `getFriendlyErrorMessage` on a failure whose attributes are of
any primitive type: the value returned, or the exception raised. -/
def getFriendlyErrorMessageRaw (error : RawFailure) : Except JsError JsValue :=
  classifyRaw (rootCauseRaw error).attrs

/-- An optional string as a JavaScript value. -/
def ofOptionString : Option String → JsValue
  | some s => .string s
  | none => .undefined

/-- An optional integer as a JavaScript value. -/
def ofOptionInt : Option Int → JsValue
  | some n => .number n
  | none => .undefined

/-- Attributes that are strings (or a number, for `code`) or absent, as
attributes of any primitive type. -/
def Attrs.toRaw (a : Attrs) : RawAttrs where
  name := ofOptionString a.name
  code := ofOptionInt a.code
  message := ofOptionString a.message
  reason := ofOptionString a.reason

/-- A failure with typed attributes as a failure with attributes of any
primitive type. -/
def Failure.toRaw : Failure → RawFailure
  | .leaf a => .leaf a.toRaw
  | .wrap a c => .wrap a.toRaw c.toRaw

/-! ## The page -/

/-- The category passed to `showStatus`. -/
inductive Category where
  | info
  | success
  | error
deriving DecidableEq

/-- What the status element displays. -/
structure Status where
  message : String
  category : Category
deriving DecidableEq

/-- The parts of the document the handlers read and write. -/
structure UI where
  connectText : String
  connectDisabled : Bool
  fundText : String
  fundDisabled : Bool
  withdrawText : String
  withdrawDisabled : Bool
  balanceText : String
  balanceDisabled : Bool
  /-- The value of the `ethAmount` input. -/
  ethAmount : String
  /-- The `id` of `document.activeElement`. -/
  activeId : String
  status : Status
deriving DecidableEq

/-- The function `showStatus`. -/
def showStatus (message : String) (type : Category) (s : UI) : UI :=
  { s with status := { message := message, category := type } }

/-- The function `toggleButtons`. -/
def toggleButtons (disabled : Bool) (s : UI) : UI :=
  let s := { s with fundDisabled := disabled, withdrawDisabled := disabled,
                    balanceDisabled := disabled }
  if disabled && s.activeId == "fundButton" then
    { s with fundText := "Processing..." }
  else if disabled && s.activeId == "withdrawButton" then
    { s with withdrawText := "Withdrawing..." }
  else
    { s with fundText := "Fund", withdrawText := "Withdraw" }

/-- Outcome of one awaited external call: its value, or the failure it threw.
The outcome of a step also covers the synchronous library calls evaluated on
the way to it (`defineChain`, `createWalletClient`, `parseEther`, ...). -/
abbrev Outcome (β : Type) := Except Failure β

/-- Outcomes of the external calls of `getBalance`, in program order. -/
structure BalanceCalls where
  chainId : Outcome Unit
  /-- The value is the text `formatEther(balance)`. -/
  getBalance : Outcome String

/-- Outcomes of the external calls of `fund` and of `withdraw`, in program
order; `refresh` belongs to the nested call of `getBalance`. -/
structure TxCalls where
  chainId : Outcome Unit
  requestAddresses : Outcome Unit
  simulateContract : Outcome Unit
  writeContract : Outcome Unit
  waitForTransactionReceipt : Outcome Unit
  refresh : BalanceCalls

/-- A `try { body } catch (error) { handler } finally { cleanup }` statement.
The body returns the state it reached and the failure it threw, if any. -/
def tryCatchFinally (body : UI → UI × Option Failure) (handler : Failure → UI → UI)
    (cleanup : UI → UI) (s : UI) : UI :=
  match body s with
  | (s1, some error) => cleanup (handler error s1)
  | (s1, none) => cleanup s1

/-- The `catch` block shared by `fund`, `getBalance` and `withdraw`. -/
def showFriendly (error : Failure) (s : UI) : UI :=
  showStatus (getFriendlyErrorMessage error) .error s

/-- The string a template literal produces for `error.message`. -/
def templateText : Option String → String
  | some m => m
  | none => "undefined"

/-- The function `connect`; `hasEthereum` is the test
`typeof window.ethereum !== "undefined"`. -/
def connect (hasEthereum : Bool) (requestAddresses : Outcome Unit) (s : UI) : UI :=
  if hasEthereum then
    match requestAddresses with
    | .ok _ =>
      showStatus "Wallet connected successfully." .success
        { s with connectText := "Connected ✅", connectDisabled := true }
    | .error error =>
      showStatus ("Connection failed: " ++ templateText error.attrs.message) .error s
  else
    showStatus "Please install the MetaMask extension." .error
      { s with connectText := "Install MetaMask" }

/-- The `try` block of `getBalance`. -/
def getBalanceTry (o : BalanceCalls) (s : UI) : UI × Option Failure :=
  match o.chainId with
  | .error e => (s, some e)
  | .ok _ =>
    match o.getBalance with
    | .error e => (s, some e)
    | .ok formattedBalance =>
      (showStatus ("Contract Balance: " ++ formattedBalance ++ " ETH") .success s, none)

/-- The function `getBalance`. -/
def getBalance (o : BalanceCalls) (s : UI) : UI :=
  let s1 := { s with balanceDisabled := true, balanceText := "Fetching..." }
  let s2 := showStatus "Fetching balance from the blockchain..." .info s1
  tryCatchFinally (getBalanceTry o) showFriendly
    (fun t => { t with balanceDisabled := false, balanceText := "Get Balance" }) s2

/-- The `try` block of `fund`. -/
def fundTry (o : TxCalls) (s : UI) : UI × Option Failure :=
  match o.chainId with
  | .error e => (s, some e)
  | .ok _ =>
    match o.requestAddresses with
    | .error e => (s, some e)
    | .ok _ =>
      match o.simulateContract with
      | .error e => (s, some e)
      | .ok _ =>
        match o.writeContract with
        | .error e => (s, some e)
        | .ok _ =>
          let s1 := showStatus "Transaction sent. Awaiting confirmation..." .info s
          match o.waitForTransactionReceipt with
          | .error e => (s1, some e)
          | .ok _ =>
            let s2 := showStatus "Funding successful! Refreshing balance..." .success s1
            (getBalance o.refresh s2, none)

/-- The function `fund`; `nonPositive x` is the test `parseFloat(x) <= 0`. -/
def fund (nonPositive : String → Bool) (o : TxCalls) (s : UI) : UI :=
  let ethAmount := s.ethAmount
  if ethAmount == "" || nonPositive ethAmount then
    showStatus "Please enter a valid amount." .error s
  else
    let s1 := toggleButtons true s
    let s2 := showStatus ("Funding with " ++ ethAmount ++ " ETH... please wait.") .info s1
    tryCatchFinally (fundTry o) showFriendly
      (fun t => { toggleButtons false t with ethAmount := "" }) s2

/-- The `try` block of `withdraw`. -/
def withdrawTry (o : TxCalls) (s : UI) : UI × Option Failure :=
  match o.chainId with
  | .error e => (s, some e)
  | .ok _ =>
    match o.requestAddresses with
    | .error e => (s, some e)
    | .ok _ =>
      match o.simulateContract with
      | .error e => (s, some e)
      | .ok _ =>
        match o.writeContract with
        | .error e => (s, some e)
        | .ok _ =>
          let s1 := showStatus "Withdrawal sent. Awaiting confirmation..." .info s
          match o.waitForTransactionReceipt with
          | .error e => (s1, some e)
          | .ok _ =>
            let s2 := showStatus "Withdrawal successful! Refreshing balance..." .success s1
            (getBalance o.refresh s2, none)

/-- The function `withdraw`. -/
def withdraw (o : TxCalls) (s : UI) : UI :=
  let s1 := toggleButtons true s
  let s2 := showStatus "Processing withdrawal request... please wait." .info s1
  tryCatchFinally (withdrawTry o) showFriendly (fun t => toggleButtons false t) s2

/-! ## Vocabulary of the properties -/

/-- The failure thrown by an outcome, if any. -/
def Outcome.failure {β : Type} : Outcome β → Option Failure
  | .ok _ => none
  | .error e => some e

/-- The first external call of `getBalance` that fails. -/
def BalanceCalls.firstFailure (o : BalanceCalls) : Option Failure :=
  match Outcome.failure o.chainId with
  | some e => some e
  | none => Outcome.failure o.getBalance

/-- The first external call of `fund` or `withdraw` that fails, the calls of
the nested balance refresh included. -/
def TxCalls.firstFailure (o : TxCalls) : Option Failure :=
  match Outcome.failure o.chainId with
  | some e => some e
  | none =>
    match Outcome.failure o.requestAddresses with
    | some e => some e
    | none =>
      match Outcome.failure o.simulateContract with
      | some e => some e
      | none =>
        match Outcome.failure o.writeContract with
        | some e => some e
        | none =>
          match Outcome.failure o.waitForTransactionReceipt with
          | some e => some e
          | none => o.refresh.firstFailure

/-- The fund, withdraw and balance buttons are all enabled. -/
def ButtonsEnabled (s : UI) : Prop :=
  s.fundDisabled = false ∧ s.withdrawDisabled = false ∧ s.balanceDisabled = false

/-- The fund, withdraw and balance buttons carry their resting labels. -/
def LabelsAtRest (s : UI) : Prop :=
  s.fundText = "Fund" ∧ s.withdrawText = "Withdraw" ∧ s.balanceText = "Get Balance"

instance (s : UI) : Decidable (ButtonsEnabled s) := by
  unfold ButtonsEnabled; infer_instance

instance (s : UI) : Decidable (LabelsAtRest s) := by
  unfold LabelsAtRest; infer_instance

/-- A page at rest, used to evaluate the handlers on concrete inputs. -/
def pageAtRest : UI where
  connectText := "Connect"
  connectDisabled := false
  fundText := "Fund"
  fundDisabled := false
  withdrawText := "Withdraw"
  withdrawDisabled := false
  balanceText := "Get Balance"
  balanceDisabled := false
  ethAmount := "0.1"
  activeId := "fundButton"
  status := { message := "", category := .info }

/-- A refusal by the wallet, as raised by an injected provider. -/
def userRefusal : Failure :=
  .leaf { code := some 4001, message := some "User rejected the request." }

/-- Outcomes in which every call succeeds. -/
def allSucceed : TxCalls where
  chainId := .ok ()
  requestAddresses := .ok ()
  simulateContract := .ok ()
  writeContract := .ok ()
  waitForTransactionReceipt := .ok ()
  refresh := { chainId := .ok (), getBalance := .ok "0.1" }

/-! ## Lemmas on the classifier -/

theorem classify_rejected (a : Attrs)
    (h : a.name = some "UserRejectedRequestError" ∨ a.code = some 4001) :
    classify a = msgRejected := by
  unfold classify
  rcases h with h | h <;> simp [h]

theorem classify_reverted (a : Attrs) (hname : a.name = some "ContractFunctionRevertedError")
    (hcode : a.code ≠ some 4001) :
    classify a =
      match a.reason with
      | some r => if r != "" then r else msgReverted
      | none => msgReverted := by
  unfold classify
  simp [hname, hcode]

theorem includes_ne_empty (m needle : String) (hn : needle ≠ "")
    (h : includes m needle = true) : m ≠ "" := by
  rintro rfl
  obtain ⟨cs⟩ := needle
  cases cs with
  | nil => exact hn rfl
  | cons c cs => simp [includes, occursIn, beginsWith] at h

theorem messageIncludes_of_includes (a : Attrs) (m needle : String) (hn : needle ≠ "")
    (hm : a.message = some m) (h : includes m needle = true) :
    messageIncludes a needle = true := by
  have := includes_ne_empty m needle hn h
  simp [messageIncludes, hm, h, this]

theorem messageIncludes_false (a : Attrs) (needle : String)
    (h : ∀ m, a.message = some m → includes m needle = false) :
    messageIncludes a needle = false := by
  unfold messageIncludes
  cases hm : a.message with
  | none => rfl
  | some m => simp [h m hm]

theorem classify_insufficient (a : Attrs) (hn1 : a.name ≠ some "UserRejectedRequestError")
    (hc : a.code ≠ some 4001) (hn2 : a.name ≠ some "ContractFunctionRevertedError")
    (hm : messageIncludes a "insufficient funds" = true) :
    classify a = msgInsufficient := by
  unfold classify
  simp [hn1, hn2, hc, hm]

theorem classify_forbidden (a : Attrs) (hn1 : a.name ≠ some "UserRejectedRequestError")
    (hc : a.code ≠ some 4001) (hn2 : a.name ≠ some "ContractFunctionRevertedError")
    (hi : messageIncludes a "insufficient funds" = false)
    (hm : messageIncludes a "403" = true) :
    classify a = msgForbidden := by
  unfold classify
  simp [hn1, hn2, hc, hi, hm]

theorem classify_timeout (a : Attrs) (hc : a.code ≠ some 4001)
    (hi : messageIncludes a "insufficient funds" = false)
    (hf : messageIncludes a "403" = false) (hn : a.name = some "TimeoutError") :
    classify a = msgTimeout := by
  unfold classify
  simp [hn, hc, hi, hf]

theorem classify_unexpected (a : Attrs) (hn1 : a.name ≠ some "UserRejectedRequestError")
    (hc : a.code ≠ some 4001) (hn2 : a.name ≠ some "ContractFunctionRevertedError")
    (hi : messageIncludes a "insufficient funds" = false)
    (hf : messageIncludes a "403" = false) (hn3 : a.name ≠ some "TimeoutError") :
    classify a = msgUnexpected := by
  unfold classify
  simp [hn1, hn2, hn3, hc, hi, hf]

theorem classify_ne_empty (a : Attrs) : classify a ≠ "" := by
  unfold classify
  split
  · decide
  · split
    · split
      · split
        · rename_i r _ h
          simpa using h
        · decide
      · decide
    · split
      · decide
      · split
        · decide
        · split <;> decide

theorem classify_eq_timeout_iff (a : Attrs) :
    classify a = msgTimeout ↔
      (a.name = some "TimeoutError" ∧ a.code ≠ some 4001 ∧
          messageIncludes a "insufficient funds" = false ∧ messageIncludes a "403" = false) ∨
      (a.name = some "ContractFunctionRevertedError" ∧ a.code ≠ some 4001 ∧
          a.reason = some msgTimeout) := by
  constructor
  · intro h
    unfold classify at h
    split at h
    · exact absurd h (by decide)
    · rename_i h1
      simp only [Bool.or_eq_true, beq_iff_eq, not_or] at h1
      split at h
      · rename_i h2
        simp only [beq_iff_eq] at h2
        right
        refine ⟨h2, h1.2, ?_⟩
        split at h
        · split at h
          · rename_i r hr _
            rw [hr, h]
          · exact absurd h (by decide)
        · exact absurd h (by decide)
      · split at h
        · exact absurd h (by decide)
        · split at h
          · exact absurd h (by decide)
          · split at h
            · rename_i h3 h4 h5
              simp only [beq_iff_eq] at h5
              left
              exact ⟨h5, h1.2, by simpa using h3, by simpa using h4⟩
            · exact absurd h (by decide)
  · rintro (⟨hn, hc, hi, hf⟩ | ⟨hn, hc, hr⟩)
    · exact classify_timeout a hc hi hf hn
    · rw [classify_reverted a hn hc, hr]
      rfl

/-! ## Lemmas on the cause chain -/

theorem rootCause_causeOf (e : Failure) : (rootCause e).causeOf = none := by
  induction e with
  | leaf a => rfl
  | wrap a c ih => exact ih

theorem rootCause_idem (e : Failure) : rootCause (rootCause e) = rootCause e := by
  induction e with
  | leaf a => rfl
  | wrap a c ih => exact ih

theorem walk_stops {α : Type} (g : ErrorGraph α) (fuel : Nat) (x r : α)
    (h : walk g fuel x = some r) : g.causeOf r = none := by
  induction fuel generalizing x with
  | zero => simp [walk] at h
  | succ n ih =>
    unfold walk at h
    cases hc : g.causeOf x with
    | none =>
      rw [hc] at h
      simp only [Option.some.injEq] at h
      rw [← h]
      exact hc
    | some y =>
      rw [hc] at h
      exact ih y h

theorem walk_chain (e : Failure) (k : Nat) :
    walk chainGraph (e.depth + 1 + k) e = some (rootCause e) := by
  induction e with
  | leaf a =>
    have : Failure.depth (.leaf a) + 1 + k = k + 1 := by simp [Failure.depth]; omega
    rw [this]
    rfl
  | wrap a c ih =>
    have : Failure.depth (.wrap a c) + 1 + k = (c.depth + 1 + k) + 1 := by
      simp [Failure.depth]; omega
    rw [this]
    unfold walk
    simpa [chainGraph, Failure.causeOf, rootCause] using ih

theorem walk_chain_short (e : Failure) (k : Nat) :
    walk chainGraph (e.depth - k) e = none := by
  induction e generalizing k with
  | leaf a => simp [Failure.depth, walk]
  | wrap a c ih =>
    cases hk : Failure.depth (.wrap a c) - k with
    | zero => rfl
    | succ n =>
      have hn : n = c.depth - k := by simp [Failure.depth] at hk; omega
      unfold walk
      simpa [chainGraph, Failure.causeOf, hn] using ih k

theorem onChain_eq (e : Failure) (k : Nat) :
    getFriendlyErrorMessageOn chainGraph (e.depth + 1 + k) e =
      some (getFriendlyErrorMessage e) := by
  unfold getFriendlyErrorMessageOn
  rw [walk_chain]
  rfl

theorem walk_selfCaused (fuel : Nat) (x : Unit) : walk selfCaused fuel x = none := by
  induction fuel with
  | zero => rfl
  | succ n ih => simpa [walk, selfCaused] using ih

theorem walk_mutuallyCaused (fuel : Nat) (b : Bool) : walk mutuallyCaused fuel b = none := by
  induction fuel generalizing b with
  | zero => rfl
  | succ n ih => simpa [walk, mutuallyCaused] using ih (!b)

/-! ## The two embeddings agree on typed attributes -/

theorem rootCauseRaw_toRaw (e : Failure) :
    rootCauseRaw e.toRaw = (rootCause e).toRaw := by
  induction e with
  | leaf a => rfl
  | wrap a c ih => exact ih

theorem attrs_toRaw (e : Failure) : e.toRaw.attrs = e.attrs.toRaw := by
  cases e <;> rfl

theorem messageIncludesRaw_toRaw (a : Attrs) (needle : String) :
    messageIncludesRaw a.toRaw needle = .ok (messageIncludes a needle) := by
  obtain ⟨n, c, m, r⟩ := a
  cases m with
  | none => rfl
  | some m =>
    by_cases hm : m = ""
    · simp [messageIncludesRaw, messageIncludes, Attrs.toRaw, ofOptionString,
        JsValue.truthy, hm]
    · simp [messageIncludesRaw, messageIncludes, Attrs.toRaw, ofOptionString,
        JsValue.truthy, includesCall, hm]

theorem ofOptionString_eq (x : Option String) (s : String) :
    (ofOptionString x == JsValue.string s) = (x == some s) := by
  cases x with
  | none => simp [ofOptionString]
  | some t => simp [ofOptionString]

theorem ofOptionInt_eq (x : Option Int) (n : Int) :
    (ofOptionInt x == JsValue.number n) = (x == some n) := by
  cases x with
  | none => simp [ofOptionInt]
  | some t => simp [ofOptionInt]

theorem classifyRaw_toRaw (a : Attrs) :
    classifyRaw a.toRaw = .ok (.string (classify a)) := by
  unfold classifyRaw classify
  rw [messageIncludesRaw_toRaw, messageIncludesRaw_toRaw]
  simp only [Attrs.toRaw, ofOptionString_eq, ofOptionInt_eq]
  split
  · rfl
  · split
    · cases hr : a.reason with
      | none => rfl
      | some r =>
        by_cases h : r = "" <;> simp [ofOptionString, JsValue.truthy, h]
    · cases messageIncludes a "insufficient funds" <;>
        cases messageIncludes a "403" <;> simp only [] <;> first | rfl | (split <;> rfl)

theorem raw_agrees_on_typed (e : Failure) :
    getFriendlyErrorMessageRaw e.toRaw = .ok (.string (getFriendlyErrorMessage e)) := by
  unfold getFriendlyErrorMessageRaw getFriendlyErrorMessage
  rw [rootCauseRaw_toRaw, attrs_toRaw, classifyRaw_toRaw]

/-! ## Properties of the classifier -/

/-- C1: when the innermost cause has name `UserRejectedRequestError` or code
4001, the result is the cancellation message, whatever its message and reason
and whatever the outer error objects carry. -/
theorem rejection_wins (e : Failure)
    (h : (rootCause e).attrs.name = some "UserRejectedRequestError" ∨
      (rootCause e).attrs.code = some 4001) :
    getFriendlyErrorMessage e =
      "Transaction rejected. You canceled the request in your wallet." :=
  classify_rejected _ h

/-- C1 at concrete failures: the scenario of the specification, and a revert
with a reason and an insufficient-funds message that carries code 4001. -/
theorem rejection_wins_witness :
    getFriendlyErrorMessage (.wrap {} (.leaf { name := some "UserRejectedRequestError" })) =
        "Transaction rejected. You canceled the request in your wallet." ∧
      getFriendlyErrorMessage
          (.wrap { name := some "TimeoutError", message := some "403" }
            (.leaf { name := some "ContractFunctionRevertedError", code := some 4001,
                     message := some "insufficient funds", reason := some "Not owner" })) =
        "Transaction rejected. You canceled the request in your wallet." :=
  ⟨rejection_wins _ (Or.inl rfl), rejection_wins _ (Or.inr rfl)⟩

/-- C2 as stated fails: a contract revert with a non-empty reason whose code is
4001 yields the cancellation message, not the reason. -/
theorem revert_with_code_4001 :
    getFriendlyErrorMessage
        (.leaf { name := some "ContractFunctionRevertedError", code := some 4001,
                 reason := some "Funding amount must be greater than zero" }) =
        "Transaction rejected. You canceled the request in your wallet." ∧
      getFriendlyErrorMessage
        (.leaf { name := some "ContractFunctionRevertedError", code := some 4001,
                 reason := some "Funding amount must be greater than zero" }) ≠
        "Funding amount must be greater than zero" := by
  decide

/-- C2 amended: when the innermost cause is a contract revert whose code is not
4001, a non-empty reason is returned verbatim, and an empty or absent reason
yields the generic revert message. -/
theorem revert_reason_or_generic (e : Failure)
    (hname : (rootCause e).attrs.name = some "ContractFunctionRevertedError")
    (hcode : (rootCause e).attrs.code ≠ some 4001) :
    (∀ R : String, (rootCause e).attrs.reason = some R → R ≠ "" →
        getFriendlyErrorMessage e = R) ∧
      ((rootCause e).attrs.reason = none ∨ (rootCause e).attrs.reason = some "" →
        getFriendlyErrorMessage e = "The transaction was reverted by the contract.") := by
  have h := classify_reverted _ hname hcode
  refine ⟨fun R hR hne => ?_, fun hr => ?_⟩
  · unfold getFriendlyErrorMessage
    rw [h, hR]
    simp [hne]
  · unfold getFriendlyErrorMessage
    rw [h]
    rcases hr with hr | hr <;> rw [hr] <;> rfl

/-- C2 amended at concrete failures: the scenario of the specification, and a
revert with an empty reason. -/
theorem revert_reason_or_generic_witness :
    getFriendlyErrorMessage
        (.wrap {} (.leaf { name := some "ContractFunctionRevertedError",
                           reason := some "Funding amount must be greater than zero" })) =
        "Funding amount must be greater than zero" ∧
      getFriendlyErrorMessage
        (.leaf { name := some "ContractFunctionRevertedError", reason := some "" }) =
        "The transaction was reverted by the contract." :=
  ⟨(revert_reason_or_generic
      (.wrap {} (.leaf { name := some "ContractFunctionRevertedError",
                         reason := some "Funding amount must be greater than zero" }))
      rfl (by decide)).1 _ rfl (by decide),
    (revert_reason_or_generic
      (.leaf { name := some "ContractFunctionRevertedError", reason := some "" })
      rfl (by decide)).2 (Or.inr rfl)⟩

/-- C3 as stated fails: a failure whose own message contains
`insufficient funds`, with no name and no code, is not classified as
insufficient funds when it wraps a cause; the cause alone is inspected. -/
theorem outer_message_not_inspected :
    includes "insufficient funds for gas * price + value" "insufficient funds" = true ∧
      getFriendlyErrorMessage
        (.wrap { message := some "insufficient funds for gas * price + value" }
          (.leaf { message := some "Internal JSON-RPC error." })) =
        "An unexpected error occurred. Please try again." := by
  decide

/-- C3 amended: when the message of the innermost cause contains
`insufficient funds` and its name and code match neither cancellation nor
revert, the result is the insufficient-funds message, also when the message
contains `403` or the name is `TimeoutError`. -/
theorem insufficient_funds_rule (e : Failure) (m : String)
    (hm : (rootCause e).attrs.message = some m)
    (hin : includes m "insufficient funds" = true)
    (hn1 : (rootCause e).attrs.name ≠ some "UserRejectedRequestError")
    (hc : (rootCause e).attrs.code ≠ some 4001)
    (hn2 : (rootCause e).attrs.name ≠ some "ContractFunctionRevertedError") :
    getFriendlyErrorMessage e =
      "Insufficient funds to complete the transaction (including gas fees)." :=
  classify_insufficient _ hn1 hc hn2
    (messageIncludes_of_includes _ m _ (by decide) hm hin)

/-- C3 amended at a concrete failure named `TimeoutError` whose message also
contains `403`. -/
theorem insufficient_funds_rule_witness :
    getFriendlyErrorMessage
        (.wrap { name := some "UserRejectedRequestError" }
          (.leaf { name := some "TimeoutError",
                   message := some "403: insufficient funds for transfer" })) =
      "Insufficient funds to complete the transaction (including gas fees)." :=
  insufficient_funds_rule _ "403: insufficient funds for transfer" rfl (by decide)
    (by decide) (by decide) (by decide)

/-- C4: when the innermost cause has a name other than the three recognised
ones (or none), a code other than 4001 (or none), and a message that is absent
or contains neither `insufficient funds` nor `403`, the result is the generic
unexpected-error message. -/
theorem fallback_rule (e : Failure)
    (hn1 : (rootCause e).attrs.name ≠ some "UserRejectedRequestError")
    (hn2 : (rootCause e).attrs.name ≠ some "ContractFunctionRevertedError")
    (hn3 : (rootCause e).attrs.name ≠ some "TimeoutError")
    (hc : (rootCause e).attrs.code ≠ some 4001)
    (hm : ∀ m, (rootCause e).attrs.message = some m →
      includes m "insufficient funds" = false ∧ includes m "403" = false) :
    getFriendlyErrorMessage e = "An unexpected error occurred. Please try again." :=
  classify_unexpected _ hn1 hc hn2
    (messageIncludes_false _ _ fun m h => (hm m h).1)
    (messageIncludes_false _ _ fun m h => (hm m h).2) hn3

/-- C4 at concrete failures: the bare empty failure, a message that differs
from `insufficient funds` in letter case only, and the unrecognised message of
the specification. -/
theorem fallback_rule_witness :
    getFriendlyErrorMessage (.leaf {}) = "An unexpected error occurred. Please try again." ∧
      getFriendlyErrorMessage (.leaf { message := some "Insufficient Funds" }) =
        "An unexpected error occurred. Please try again." ∧
      getFriendlyErrorMessage (.leaf { message := some "totally unrecognized condition" }) =
        "An unexpected error occurred. Please try again." :=
  ⟨fallback_rule _ (by decide) (by decide) (by decide) (by decide)
      (fun m h => by simp [rootCause, Failure.attrs] at h),
    fallback_rule _ (by decide) (by decide) (by decide) (by decide)
      (fun m h => by
        simp only [rootCause, Failure.attrs, Option.some.injEq] at h
        subst h
        decide),
    fallback_rule _ (by decide) (by decide) (by decide) (by decide)
      (fun m h => by
        simp only [rootCause, Failure.attrs, Option.some.injEq] at h
        subst h
        decide)⟩

/-- C5 as stated fails: on an error object that is its own cause, and on two
error objects that are each the cause of the other, no number of evaluations of
the loop condition lets the classifier return; the loop has no depth cap. -/
theorem cyclic_chain_never_returns :
    (∀ fuel : Nat, getFriendlyErrorMessageOn selfCaused fuel () = none) ∧
      (∀ (fuel : Nat) (b : Bool), getFriendlyErrorMessageOn mutuallyCaused fuel b = none) := by
  constructor
  · intro fuel
    simp [getFriendlyErrorMessageOn, walk_selfCaused]
  · intro fuel b
    simp [getFriendlyErrorMessageOn, walk_mutuallyCaused]

/-- C5 amended: on every failure with a finite cause chain the classifier
returns. The walk ends on the innermost error object, the first one lacking a
further cause, once the loop condition has been evaluated `depth + 1` times, and
not before: the number of objects visited is the length of the chain, with no
cap. -/
theorem finite_chain_terminates (e : Failure) (k : Nat) :
    getFriendlyErrorMessageOn chainGraph (e.depth + 1 + k) e =
        some (getFriendlyErrorMessage e) ∧
      walk chainGraph (e.depth + 1 + k) e = some (rootCause e) ∧
      chainGraph.causeOf (rootCause e) = none ∧
      walk chainGraph (e.depth - k) e = none ∧
      getFriendlyErrorMessageOn chainGraph (e.depth - k) e = none := by
  refine ⟨onChain_eq e k, walk_chain e k, rootCause_causeOf e, walk_chain_short e k, ?_⟩
  simp [getFriendlyErrorMessageOn, walk_chain_short]

/-- On failures whose attributes are strings or absent the classifier returns,
and its result is a non-empty string. -/
theorem typed_result_nonempty (e : Failure) :
    getFriendlyErrorMessageOn chainGraph (e.depth + 1) e =
        some (getFriendlyErrorMessage e) ∧
      getFriendlyErrorMessage e ≠ "" ∧ 0 < (getFriendlyErrorMessage e).length := by
  have h := classify_ne_empty (rootCause e).attrs
  refine ⟨onChain_eq e 0, h, ?_⟩
  unfold getFriendlyErrorMessage
  rcases hs : classify (rootCause e).attrs with ⟨cs⟩
  cases cs with
  | nil => exact absurd hs h
  | cons c cs => simp [String.length]

/-- C6 does not hold of the code: on a contract revert whose `reason` is the
number 42 the classifier returns that number, not a string, and on a failure
whose `message` is the number 403, or whose cause has the message `true`, it
raises `TypeError`; each of these failures is non-null with a finite cause
chain. -/
theorem nonstring_attribute_breaks_result :
    getFriendlyErrorMessageRaw
        (.leaf { name := .string "ContractFunctionRevertedError", reason := .number 42 }) =
        .ok (.number 42) ∧
      getFriendlyErrorMessageRaw (.leaf { message := .number 403 }) = .error .typeError ∧
      getFriendlyErrorMessageRaw
        (.wrap { message := .string "outer" } (.leaf { message := .boolean true })) =
        .error .typeError := by
  refine ⟨rfl, rfl, rfl⟩

/-- C9: a failure with a cause is classified as its cause is, so the result is
the classification of the innermost error object alone and the attributes of
the outer objects never matter. -/
theorem only_innermost_inspected :
    (∀ (a : Attrs) (c : Failure),
        getFriendlyErrorMessage (.wrap a c) = getFriendlyErrorMessage c) ∧
      (∀ e : Failure, getFriendlyErrorMessage e = getFriendlyErrorMessage (rootCause e)) ∧
      (∀ (a b : Attrs) (c : Failure),
        getFriendlyErrorMessage (.wrap a c) = getFriendlyErrorMessage (.wrap b c)) ∧
      getFriendlyErrorMessage
          (.wrap { name := some "UserRejectedRequestError" }
            (.leaf { name := some "TimeoutError" })) =
        "Network request timed out. Please check your internet connection." := by
  refine ⟨fun _ _ => rfl, fun e => ?_, fun _ _ _ => rfl, by decide⟩
  unfold getFriendlyErrorMessage
  rw [rootCause_idem]

/-- C10 as stated fails: the text of the timeout message is also returned for a
contract revert that carries this text as its reason, although the name is not
`TimeoutError` and an earlier rule matched. -/
theorem timeout_text_from_revert_reason :
    getFriendlyErrorMessage
        (.leaf { name := some "ContractFunctionRevertedError",
                 reason := some
                   "Network request timed out. Please check your internet connection." }) =
      "Network request timed out. Please check your internet connection." := by
  decide

/-- C10 amended: when the message of the innermost cause contains `403` but not
`insufficient funds`, and its name and code match neither cancellation nor
revert, the result is the provider-forbidden message, also when the name is
`TimeoutError`. The timeout message is returned exactly when the name is
`TimeoutError` and no earlier rule matches, or when a contract revert whose code
is not 4001 carries that very text as its reason. -/
theorem forbidden_before_timeout (e : Failure) :
    (∀ m : String, (rootCause e).attrs.message = some m →
        includes m "403" = true → includes m "insufficient funds" = false →
        (rootCause e).attrs.name ≠ some "UserRejectedRequestError" →
        (rootCause e).attrs.name ≠ some "ContractFunctionRevertedError" →
        (rootCause e).attrs.code ≠ some 4001 →
        getFriendlyErrorMessage e =
          "Request forbidden. Your RPC provider may be blocking the request.") ∧
      (getFriendlyErrorMessage e =
          "Network request timed out. Please check your internet connection." ↔
        ((rootCause e).attrs.name = some "TimeoutError" ∧
            (rootCause e).attrs.code ≠ some 4001 ∧
            messageIncludes (rootCause e).attrs "insufficient funds" = false ∧
            messageIncludes (rootCause e).attrs "403" = false) ∨
          ((rootCause e).attrs.name = some "ContractFunctionRevertedError" ∧
            (rootCause e).attrs.code ≠ some 4001 ∧
            (rootCause e).attrs.reason =
              some "Network request timed out. Please check your internet connection.")) := by
  refine ⟨fun m hm h403 hins hn1 hn2 hc => ?_, classify_eq_timeout_iff _⟩
  exact classify_forbidden _ hn1 hc hn2
    (messageIncludes_false _ _ fun m2 h2 => by
      rw [hm] at h2
      cases h2
      exact hins)
    (messageIncludes_of_includes _ m _ (by decide) hm h403)

/-- C10 amended at concrete failures: a `TimeoutError` whose message contains
`403`, the two scenarios of the specification, and a `TimeoutError` with an
unrelated message. -/
theorem forbidden_before_timeout_witness :
    getFriendlyErrorMessage
        (.leaf { name := some "TimeoutError", message := some "HTTP 403 after timeout" }) =
        "Request forbidden. Your RPC provider may be blocking the request." ∧
      getFriendlyErrorMessage (.leaf { message := some "403 Forbidden from provider" }) =
        "Request forbidden. Your RPC provider may be blocking the request." ∧
      getFriendlyErrorMessage (.leaf { name := some "TimeoutError" }) =
        "Network request timed out. Please check your internet connection." ∧
      getFriendlyErrorMessage
          (.wrap {} (.leaf { name := some "TimeoutError", message := some "took too long" })) =
        "Network request timed out. Please check your internet connection." :=
  ⟨(forbidden_before_timeout
      (.leaf { name := some "TimeoutError", message := some "HTTP 403 after timeout" })).1
      "HTTP 403 after timeout" rfl (by decide) (by decide) (by decide) (by decide) (by decide),
    (forbidden_before_timeout (.leaf { message := some "403 Forbidden from provider" })).1
      "403 Forbidden from provider" rfl (by decide) (by decide) (by decide) (by decide)
      (by decide),
    (forbidden_before_timeout (.leaf { name := some "TimeoutError" })).2.mpr
      (Or.inl ⟨rfl, by decide, by decide, by decide⟩),
    (forbidden_before_timeout
      (.wrap {} (.leaf { name := some "TimeoutError", message := some "took too long" }))).2.mpr
      (Or.inl ⟨rfl, by decide, by decide, by decide⟩)⟩

/-! ## Lemmas on the handlers -/

theorem toggleButtons_false (t : UI) :
    toggleButtons false t =
      { t with fundDisabled := false, withdrawDisabled := false, balanceDisabled := false,
               fundText := "Fund", withdrawText := "Withdraw" } := by
  simp [toggleButtons]

theorem toggleButtons_balanceText (d : Bool) (t : UI) :
    (toggleButtons d t).balanceText = t.balanceText := by
  simp only [toggleButtons]
  split_ifs <;> rfl

theorem toggleButtons_status (d : Bool) (t : UI) :
    (toggleButtons d t).status = t.status := by
  simp only [toggleButtons]
  split_ifs <;> rfl

theorem getBalance_buttons (o : BalanceCalls) (s : UI) :
    (getBalance o s).balanceDisabled = false ∧ (getBalance o s).balanceText = "Get Balance" ∧
      (getBalance o s).fundDisabled = s.fundDisabled ∧
      (getBalance o s).withdrawDisabled = s.withdrawDisabled ∧
      (getBalance o s).fundText = s.fundText ∧
      (getBalance o s).withdrawText = s.withdrawText := by
  obtain ⟨c, b⟩ := o
  cases c <;> cases b <;>
    simp [getBalance, tryCatchFinally, getBalanceTry, showFriendly, showStatus]

theorem getBalance_status_of_failure (o : BalanceCalls) (s : UI) (e : Failure)
    (h : o.firstFailure = some e) :
    (getBalance o s).status = ⟨getFriendlyErrorMessage e, .error⟩ := by
  obtain ⟨c, b⟩ := o
  cases c <;> cases b <;>
    simp_all [BalanceCalls.firstFailure, Outcome.failure, getBalance, tryCatchFinally,
      getBalanceTry, showFriendly, showStatus]

theorem fundTry_balanceText (o : TxCalls) (s : UI) :
    (fundTry o s).1.balanceText = s.balanceText ∨
      (fundTry o s).1.balanceText = "Get Balance" := by
  obtain ⟨c1, c2, c3, c4, c5, r⟩ := o
  cases c1 <;> cases c2 <;> cases c3 <;> cases c4 <;> cases c5 <;>
    simp [fundTry, showStatus, getBalance_buttons]

theorem withdrawTry_balanceText (o : TxCalls) (s : UI) :
    (withdrawTry o s).1.balanceText = s.balanceText ∨
      (withdrawTry o s).1.balanceText = "Get Balance" := by
  obtain ⟨c1, c2, c3, c4, c5, r⟩ := o
  cases c1 <;> cases c2 <;> cases c3 <;> cases c4 <;> cases c5 <;>
    simp [withdrawTry, showStatus, getBalance_buttons]

theorem fundTry_status_of_failure (o : TxCalls) (s : UI) (e : Failure)
    (h : o.firstFailure = some e) :
    (tryCatchFinally (fundTry o) showFriendly
        (fun t => { toggleButtons false t with ethAmount := "" }) s).status =
      ⟨getFriendlyErrorMessage e, .error⟩ := by
  obtain ⟨c1, c2, c3, c4, c5, r⟩ := o
  cases c1 <;> cases c2 <;> cases c3 <;> cases c4 <;> cases c5 <;>
    simp_all [TxCalls.firstFailure, Outcome.failure, tryCatchFinally, fundTry, showFriendly,
      showStatus, toggleButtons_status, getBalance_status_of_failure]

theorem withdrawTry_status_of_failure (o : TxCalls) (s : UI) (e : Failure)
    (h : o.firstFailure = some e) :
    (tryCatchFinally (withdrawTry o) showFriendly (fun t => toggleButtons false t) s).status =
      ⟨getFriendlyErrorMessage e, .error⟩ := by
  obtain ⟨c1, c2, c3, c4, c5, r⟩ := o
  cases c1 <;> cases c2 <;> cases c3 <;> cases c4 <;> cases c5 <;>
    simp_all [TxCalls.firstFailure, Outcome.failure, tryCatchFinally, withdrawTry, showFriendly,
      showStatus, toggleButtons_status, getBalance_status_of_failure]

theorem fund_buttons (nonPositive : String → Bool) (o : TxCalls) (s : UI)
    (h : ButtonsEnabled s) :
    ButtonsEnabled (fund nonPositive o s) ∧
      (LabelsAtRest s → LabelsAtRest (fund nonPositive o s)) := by
  unfold fund
  simp only
  split
  · exact ⟨h, fun hl => hl⟩
  · have hb := fundTry_balanceText o
      (showStatus ("Funding with " ++ s.ethAmount ++ " ETH... please wait.") .info
        (toggleButtons true s))
    unfold tryCatchFinally
    rcases hbody : fundTry o
      (showStatus ("Funding with " ++ s.ethAmount ++ " ETH... please wait.") .info
        (toggleButtons true s)) with ⟨s1, _ | e⟩ <;>
      rw [hbody] at hb <;>
      simp only [showStatus, toggleButtons_balanceText] at hb <;>
      refine ⟨by simp [ButtonsEnabled, toggleButtons_false], fun hl => ?_⟩ <;>
      rcases hb with hb | hb <;>
      simp [LabelsAtRest, toggleButtons_false, showFriendly, showStatus, hb, hl.2.2]

theorem withdraw_buttons (o : TxCalls) (s : UI) :
    ButtonsEnabled (withdraw o s) ∧ (LabelsAtRest s → LabelsAtRest (withdraw o s)) := by
  unfold withdraw
  simp only
  have hb := withdrawTry_balanceText o
    (showStatus "Processing withdrawal request... please wait." .info (toggleButtons true s))
  unfold tryCatchFinally
  rcases hbody : withdrawTry o
    (showStatus "Processing withdrawal request... please wait." .info
      (toggleButtons true s)) with ⟨s1, _ | e⟩ <;>
    rw [hbody] at hb <;>
    simp only [showStatus, toggleButtons_balanceText] at hb <;>
    refine ⟨by simp [ButtonsEnabled, toggleButtons_false], fun hl => ?_⟩ <;>
    rcases hb with hb | hb <;>
    simp [LabelsAtRest, toggleButtons_false, showFriendly, showStatus, hb, hl.2.2]

/-! ## Properties of the handlers -/

/-- C7: from a page whose fund, withdraw and balance buttons are enabled,
`fund`, `withdraw` and `getBalance` end with the three buttons enabled whatever
the amount entered and whatever the outcome of each external call, those of the
nested balance refresh included; and when the buttons carried the labels
`Fund`, `Withdraw` and `Get Balance` at the start, they carry them again at the
end. -/
theorem buttons_reenabled (s : UI) (h : ButtonsEnabled s) (nonPositive : String → Bool)
    (tx : TxCalls) (bal : BalanceCalls) :
    (ButtonsEnabled (fund nonPositive tx s) ∧ ButtonsEnabled (withdraw tx s) ∧
        ButtonsEnabled (getBalance bal s)) ∧
      (LabelsAtRest s →
        LabelsAtRest (fund nonPositive tx s) ∧ LabelsAtRest (withdraw tx s) ∧
          LabelsAtRest (getBalance bal s)) := by
  have hg := getBalance_buttons bal s
  refine ⟨⟨(fund_buttons nonPositive tx s h).1, (withdraw_buttons tx s).1, ?_⟩,
    fun hl => ⟨(fund_buttons nonPositive tx s h).2 hl, (withdraw_buttons tx s).2 hl, ?_⟩⟩
  · exact ⟨hg.2.2.1.trans h.1, hg.2.2.2.1.trans h.2.1, hg.1⟩
  · exact ⟨hg.2.2.2.2.1.trans hl.1, hg.2.2.2.2.2.trans hl.2.1, hg.2.1⟩

/-- C7 on the page at rest, with a receipt that fails and a balance query that
fails. -/
theorem buttons_reenabled_witness :
    ButtonsEnabled pageAtRest ∧ LabelsAtRest pageAtRest ∧
      ButtonsEnabled
        (fund (fun _ => false) { allSucceed with waitForTransactionReceipt := .error userRefusal }
          pageAtRest) ∧
      LabelsAtRest
        (withdraw
          { allSucceed with refresh := { chainId := .ok (), getBalance := .error userRefusal } }
          pageAtRest) :=
  ⟨by decide, by decide,
    (buttons_reenabled pageAtRest (by decide) (fun _ => false)
      { allSucceed with waitForTransactionReceipt := .error userRefusal }
      { chainId := .ok (), getBalance := .error userRefusal }).1.1,
    ((buttons_reenabled pageAtRest (by decide) (fun _ => false)
      { allSucceed with refresh := { chainId := .ok (), getBalance := .error userRefusal } }
      { chainId := .ok (), getBalance := .error userRefusal }).2 (by decide)).2.1⟩

/-- C8 as stated fails for `connect`: when `requestAddresses` is refused with
code 4001, the status shown is `Connection failed:` followed by the message of
the failure, not the classification of the failure. -/
theorem connect_shows_raw_message :
    (connect true (.error userRefusal) pageAtRest).status =
        ⟨"Connection failed: User rejected the request.", .error⟩ ∧
      getFriendlyErrorMessage userRefusal =
        "Transaction rejected. You canceled the request in your wallet." ∧
      (connect true (.error userRefusal) pageAtRest).status ≠
        ⟨getFriendlyErrorMessage userRefusal, .error⟩ := by
  decide

/-- C8 amended: in `fund` (with a valid amount), `getBalance` and `withdraw`, when
an external call fails with failure `e`, the failure is caught and the status
shown at the end is the classification of `e` with category `error`; in
`connect` a failure of `requestAddresses` is caught and the status shown is
`Connection failed:` followed by the message of the failure, with category
`error`. -/
theorem failures_reach_status (s : UI) (e : Failure) (nonPositive : String → Bool)
    (tx : TxCalls) (bal : BalanceCalls) :
    ((s.ethAmount == "" || nonPositive s.ethAmount) = false → tx.firstFailure = some e →
        (fund nonPositive tx s).status = ⟨getFriendlyErrorMessage e, .error⟩) ∧
      (tx.firstFailure = some e →
        (withdraw tx s).status = ⟨getFriendlyErrorMessage e, .error⟩) ∧
      (bal.firstFailure = some e →
        (getBalance bal s).status = ⟨getFriendlyErrorMessage e, .error⟩) ∧
      (connect true (.error e) s).status =
        ⟨"Connection failed: " ++ templateText e.attrs.message, .error⟩ := by
  refine ⟨fun hv hf => ?_, fun hf => ?_, fun hf => getBalance_status_of_failure bal s e hf, rfl⟩
  · unfold fund
    simp only [hv]
    exact fundTry_status_of_failure tx _ e hf
  · unfold withdraw
    exact withdrawTry_status_of_failure tx _ e hf

/-- C8 amended on the page at rest: a refused `writeContract` in `fund`, a
refused balance query in the refresh nested in `withdraw`, and a refused
balance query in `getBalance`. -/
theorem failures_reach_status_witness :
    (fund (fun _ => false) { allSucceed with writeContract := .error userRefusal }
        pageAtRest).status =
        ⟨"Transaction rejected. You canceled the request in your wallet.", .error⟩ ∧
      (withdraw
        { allSucceed with refresh := { chainId := .ok (), getBalance := .error userRefusal } }
        pageAtRest).status =
        ⟨"Transaction rejected. You canceled the request in your wallet.", .error⟩ ∧
      (getBalance { chainId := .ok (), getBalance := .error userRefusal } pageAtRest).status =
        ⟨"Transaction rejected. You canceled the request in your wallet.", .error⟩ :=
  ⟨(failures_reach_status pageAtRest userRefusal (fun _ => false)
      { allSucceed with writeContract := .error userRefusal }
      { chainId := .ok (), getBalance := .ok "0" }).1 (by decide) rfl,
    (failures_reach_status pageAtRest userRefusal (fun _ => false)
      { allSucceed with refresh := { chainId := .ok (), getBalance := .error userRefusal } }
      { chainId := .ok (), getBalance := .ok "0" }).2.1 rfl,
    (failures_reach_status pageAtRest userRefusal (fun _ => false) allSucceed
      { chainId := .ok (), getBalance := .error userRefusal }).2.2.1 rfl⟩

end CryptoFuel
